import Mathlib

/-!
Shallow embedding of the tower-sessions core: the `SessionStore` contract
(session_store.rs), the `CachingSessionStore` decorator (session_store.rs),
and the session lifecycle layer (session.rs).

Every asynchronous store operation of the Rust source is embedded as a
state-passing function `σ → ... → Except E α × σ`: the operation returns its
result (or a hard error) together with the updated backend state, mirroring
the `&mut self` receiver of the trait methods. `try_join` of two operations
on the two disjoint tier states is modelled by running both operations on
their own state; when both fail, the cache-tier error is reported (the real
`try_join` reports whichever error occurs first, a race no claim depends on).
-/

set_option autoImplicit false

namespace TowerSessions

/-- Session identifier. Modelled from the spec: `id.rs` is not among the
provided sources; §3 describes an identifier as an opaque token with
structural equality and no other required semantics, so a natural number
stands in for the opaque token. -/
abbrev Id := Nat

/-- Expiry policy of a record. Modelled from the spec (§3): `expires.rs` is
not among the provided sources; the policy is one of session-end, sliding
inactivity, or a fixed timestamp. -/
inductive Expiry where
  | onSessionEnd
  | onInactivity (seconds : Nat)
  | atDateTime (timestamp : Int)
deriving DecidableEq

/-- The `SessionStore<R>` trait (session_store.rs): a record of the six
operations, each embedded as a state-passing function over a backend state
type `σ`, failing with a backend error type `E`. -/
structure SessionStore (R E σ : Type) where
  create : σ → R → Except E Id × σ
  save : σ → Id → R → Except E Bool × σ
  save_or_create : σ → Id → R → Except E Unit × σ
  load : σ → Id → Except E (Option R) × σ
  delete : σ → Id → Except E Bool × σ
  cycle_id : σ → Id → Except E (Option Id) × σ

/-- Default implementation of `SessionStore::cycle_id` (session_store.rs,
lines 165-179): load the record under `old_id`; if present, `create` it under
a new identifier and then `delete old_id`; `None` when nothing was found.
Errors of each step propagate immediately. -/
def default_cycle_id {R E σ : Type}
    (load : σ → Id → Except E (Option R) × σ)
    (create : σ → R → Except E Id × σ)
    (delete : σ → Id → Except E Bool × σ)
    (st : σ) (old_id : Id) : Except E (Option Id) × σ :=
  match load st old_id with
  | (.error e, s1) => (.error e, s1)
  | (.ok none, s1) => (.ok none, s1)
  | (.ok (some record), s1) =>
    match create s1 record with
    | (.error e, s2) => (.error e, s2)
    | (.ok new_id, s2) =>
      match delete s2 old_id with
      | (.error e, s3) => (.error e, s3)
      | (.ok _, s3) => (.ok (some new_id), s3)

/-- State of a `CachingSessionStore` (session_store.rs): the `cache` tier
state and the `store` tier state. -/
structure CachingSessionStore (σc σs : Type) where
  cache : σc
  store : σs

/-- `CachingSessionStore::create` (session_store.rs, lines 245-249): create
in the authoritative store first; only on success mirror into the cache via
`save_or_create` under the identifier the store assigned. A cache error is
tagged `Sum.inl` (the source's `Either::Left`), a store error `Sum.inr`. -/
def CachingSessionStore.create {R Ec Es σc σs : Type}
    (cops : SessionStore R Ec σc) (sops : SessionStore R Es σs)
    (st : CachingSessionStore σc σs) (record : R) :
    Except (Sum Ec Es) Id × CachingSessionStore σc σs :=
  match sops.create st.store record with
  | (.error e, s') => (.error (.inr e), ⟨st.cache, s'⟩)
  | (.ok id, s') =>
    match cops.save_or_create st.cache id record with
    | (.error e, c') => (.error (.inl e), ⟨c', s'⟩)
    | (.ok _, c') => (.ok id, ⟨c', s'⟩)

/-- `CachingSessionStore::save` (session_store.rs, lines 251-262): save to
both tiers; if the store reports `false` while the cache reported `true`,
purge the cache entry; return the store tier's boolean. -/
def CachingSessionStore.save {R Ec Es σc σs : Type}
    (cops : SessionStore R Ec σc) (sops : SessionStore R Es σs)
    (st : CachingSessionStore σc σs) (id : Id) (record : R) :
    Except (Sum Ec Es) Bool × CachingSessionStore σc σs :=
  match cops.save st.cache id record, sops.save st.store id record with
  | (.error e, c'), (_, s') => (.error (.inl e), ⟨c', s'⟩)
  | (.ok _, c'), (.error e, s') => (.error (.inr e), ⟨c', s'⟩)
  | (.ok exists_cache, c'), (.ok exists_store, s') =>
    if !exists_store && exists_cache then
      match cops.delete c' id with
      | (.error e, c'') => (.error (.inl e), ⟨c'', s'⟩)
      | (.ok _, c'') => (.ok exists_store, ⟨c'', s'⟩)
    else (.ok exists_store, ⟨c', s'⟩)

/-- `CachingSessionStore::save_or_create` (session_store.rs, lines 264-275):
issue `save_or_create` to both tiers. -/
def CachingSessionStore.save_or_create {R Ec Es σc σs : Type}
    (cops : SessionStore R Ec σc) (sops : SessionStore R Es σs)
    (st : CachingSessionStore σc σs) (id : Id) (record : R) :
    Except (Sum Ec Es) Unit × CachingSessionStore σc σs :=
  match cops.save_or_create st.cache id record, sops.save_or_create st.store id record with
  | (.error e, c'), (_, s') => (.error (.inl e), ⟨c', s'⟩)
  | (.ok _, c'), (.error e, s') => (.error (.inr e), ⟨c', s'⟩)
  | (.ok _, c'), (.ok _, s') => (.ok (), ⟨c', s'⟩)

/-- `CachingSessionStore::load` (session_store.rs, lines 277-301): consult
the cache first; on a cache hit return immediately; on a cache miss load
from the store and, on a store hit, write the record back into the cache
with `cache.save` before returning it; a cache error is surfaced as
`Sum.inl` without consulting the store. -/
def CachingSessionStore.load {R Ec Es σc σs : Type}
    (cops : SessionStore R Ec σc) (sops : SessionStore R Es σs)
    (st : CachingSessionStore σc σs) (id : Id) :
    Except (Sum Ec Es) (Option R) × CachingSessionStore σc σs :=
  match cops.load st.cache id with
  | (.ok (some session_record), c') => (.ok (some session_record), ⟨c', st.store⟩)
  | (.ok none, c') =>
    match sops.load st.store id with
    | (.error e, s') => (.error (.inr e), ⟨c', s'⟩)
    | (.ok none, s') => (.ok none, ⟨c', s'⟩)
    | (.ok (some session_record), s') =>
      match cops.save c' id session_record with
      | (.error e, c'') => (.error (.inl e), ⟨c'', s'⟩)
      | (.ok _, c'') => (.ok (some session_record), ⟨c'', s'⟩)
  | (.error e, c') => (.error (.inl e), ⟨c', st.store⟩)

/-- `CachingSessionStore::delete` (session_store.rs, lines 303-310): delete
from both tiers and return the store tier's boolean. -/
def CachingSessionStore.delete {R Ec Es σc σs : Type}
    (cops : SessionStore R Ec σc) (sops : SessionStore R Es σs)
    (st : CachingSessionStore σc σs) (id : Id) :
    Except (Sum Ec Es) Bool × CachingSessionStore σc σs :=
  match cops.delete st.cache id, sops.delete st.store id with
  | (.error e, c'), (_, s') => (.error (.inl e), ⟨c', s'⟩)
  | (.ok _, c'), (.error e, s') => (.error (.inr e), ⟨c', s'⟩)
  | (.ok _, c'), (.ok in_store, s') => (.ok in_store, ⟨c', s'⟩)

/-- `CachingSessionStore::cycle_id` (session_store.rs, lines 312-320): purge
the old identifier from the cache while cycling on the store; return the
store's new identifier. -/
def CachingSessionStore.cycle_id {R Ec Es σc σs : Type}
    (cops : SessionStore R Ec σc) (sops : SessionStore R Es σs)
    (st : CachingSessionStore σc σs) (old_id : Id) :
    Except (Sum Ec Es) (Option Id) × CachingSessionStore σc σs :=
  match cops.delete st.cache old_id, sops.cycle_id st.store old_id with
  | (.error e, c'), (_, s') => (.error (.inl e), ⟨c', s'⟩)
  | (.ok _, c'), (.error e, s') => (.error (.inr e), ⟨c', s'⟩)
  | (.ok _, c'), (.ok new_id, s') => (.ok new_id, ⟨c', s'⟩)

/-- The disposition written into the `Updater` slot (session.rs, lines
22-26): delete the cookie, or bind it to an identifier with an expiry. -/
inductive SessionUpdate where
  | delete
  | set (id : Id) (expiry : Expiry)
deriving DecidableEq

/-- A loaded session (session.rs, `SessionState<R, Store>`): the identifier
and the record data. The source struct also holds the store handle and the
shared `Updater` cell; the embedding threads the backend state and the
updater slot (`Option SessionUpdate`) explicitly through each method. -/
structure SessionState (R : Type) where
  id : Id
  data : R

/-- The mutable-access guard (session.rs, `DataMut<R, Store>`). -/
structure DataMut (R : Type) where
  session : SessionState R

/-- `DataMut::save` (session.rs, lines 265-272): call `store.save(id, data)`;
on `true` return the session back, on `false` return `none`; the updater is
not touched. -/
def DataMut.save {R E σ : Type} (ops : SessionStore R E σ) (dm : DataMut R)
    (store : σ) (updater : Option SessionUpdate) :
    Except E (Option (SessionState R)) × σ × Option SessionUpdate :=
  match ops.save store dm.session.id dm.session.data with
  | (.error e, s') => (.error e, s', updater)
  | (.ok true, s') => (.ok (some dm.session), s', updater)
  | (.ok false, s') => (.ok none, s', updater)

/-- `SessionState::delete` (session.rs, lines 207-215): call
`store.delete(id)`; on success replace the updater slot with `Delete`
whatever boolean the store returned; propagate hard errors. -/
def SessionState.delete {R E σ : Type} (ops : SessionStore R E σ)
    (ss : SessionState R) (store : σ) (updater : Option SessionUpdate) :
    Except E Bool × σ × Option SessionUpdate :=
  match ops.delete store ss.id with
  | (.error e, s') => (.error e, s', updater)
  | (.ok deleted, s') => (.ok deleted, s', some .delete)

/-- `SessionState::cycle` (session.rs, lines 229-239): call
`store.cycle_id(id)`; on `Some(new_id)` replace the updater slot with
`Set(new_id, data.expires())` and rebind the session to `new_id`; on `None`
return `none` leaving the updater alone; propagate hard errors. The `expires`
capability of `R` is passed as a function. -/
def SessionState.cycle {R E σ : Type} (ops : SessionStore R E σ)
    (expires : R → Expiry) (ss : SessionState R) (store : σ)
    (updater : Option SessionUpdate) :
    Except E (Option (SessionState R)) × σ × Option SessionUpdate :=
  match ops.cycle_id store ss.id with
  | (.error e, s') => (.error e, s', updater)
  | (.ok (some new_id), s') =>
    (.ok (some { ss with id := new_id }), s', some (.set new_id (expires ss.data)))
  | (.ok none, s') => (.ok none, s', updater)

/-- State of the in-memory backend: an association list from identifiers to
records. -/
abbrev MemState (R : Type) := List (Id × R)

/-- Lookup in the in-memory backend. -/
def memLookup {R : Type} : MemState R → Id → Option R
  | [], _ => none
  | (k, v) :: rest, id => if k = id then some v else memLookup rest id

/-- Insert-or-update in the in-memory backend. -/
def memInsert {R : Type} : MemState R → Id → R → MemState R
  | [], id, r => [(id, r)]
  | (k, v) :: rest, id, r =>
    if k = id then (id, r) :: rest else (k, v) :: memInsert rest id r

/-- Removal from the in-memory backend. -/
def memRemove {R : Type} : MemState R → Id → MemState R
  | [], _ => []
  | (k, v) :: rest, id =>
    if k = id then memRemove rest id else (k, v) :: memRemove rest id

/-- Largest identifier present in the in-memory backend. -/
def memMax {R : Type} (s : MemState R) : Nat :=
  (s.map Prod.fst).foldr max 0

/-- A fresh identifier: one past the largest identifier present. -/
def memFresh {R : Type} (s : MemState R) : Id :=
  memMax s + 1

/-- Modelled from the spec (§4.1) and the trait documentation
(session_store.rs, lines 99-156): a minimal conforming in-memory backend,
used to instantiate the abstract tier parameters (the concrete backends of
the repository are outside the provided sources). `create` assigns a fresh
identifier; `save` updates only an existing record and otherwise returns
`false` without writing; `save_or_create` upserts; `delete` reports whether
a record existed; `cycle_id` is the trait's default implementation. -/
def MemStore (R : Type) : SessionStore R Unit (MemState R) where
  create s r := (.ok (memFresh s), memInsert s (memFresh s) r)
  save s id r :=
    match memLookup s id with
    | some _ => (.ok true, memInsert s id r)
    | none => (.ok false, s)
  save_or_create s id r := (.ok (), memInsert s id r)
  load s id := (.ok (memLookup s id), s)
  delete s id :=
    match memLookup s id with
    | some _ => (.ok true, memRemove s id)
    | none => (.ok false, s)
  cycle_id :=
    default_cycle_id
      (fun s id => (.ok (memLookup s id), s))
      (fun s r => (.ok (memFresh s), memInsert s (memFresh s) r))
      (fun s id =>
        match memLookup s id with
        | some _ => (.ok true, memRemove s id)
        | none => (.ok false, s))

/-- A backend whose every operation fails with a hard error, used to witness
that an operation path does or does not consult a tier. -/
def FailStore (R : Type) : SessionStore R Unit Unit where
  create _ _ := (.error (), ())
  save _ _ _ := (.error (), ())
  save_or_create _ _ _ := (.error (), ())
  load _ _ := (.error (), ())
  delete _ _ := (.error (), ())
  cycle_id _ _ := (.error (), ())

/-- A cache tier whose `load` always misses and whose writes fail with a
hard error, used to witness the hydration-error path. -/
def SaveFailCache (R : Type) : SessionStore R Unit Unit where
  create _ _ := (.error (), ())
  save _ _ _ := (.error (), ())
  save_or_create _ _ _ := (.error (), ())
  load _ _ := (.ok none, ())
  delete _ _ := (.error (), ())
  cycle_id _ _ := (.error (), ())

theorem memLookup_memInsert_self {R : Type} (s : MemState R) (id : Id) (r : R) :
    memLookup (memInsert s id r) id = some r := by
  induction s with
  | nil => simp [memInsert, memLookup]
  | cons hd rest ih =>
    obtain ⟨k, v⟩ := hd
    by_cases hk : k = id <;> simp [memInsert, memLookup, hk, ih]

theorem memLookup_memInsert_ne {R : Type} (s : MemState R) (id id' : Id) (r : R)
    (h : id ≠ id') : memLookup (memInsert s id r) id' = memLookup s id' := by
  induction s with
  | nil => simp [memInsert, memLookup, h]
  | cons hd rest ih =>
    obtain ⟨k, v⟩ := hd
    by_cases hk : k = id
    · subst hk
      simp [memInsert, memLookup, h]
    · by_cases hk' : k = id' <;>
        simp [memInsert, memLookup, hk, hk', Ne.symm h, ih]

theorem memLookup_memRemove_self {R : Type} (s : MemState R) (id : Id) :
    memLookup (memRemove s id) id = none := by
  induction s with
  | nil => simp [memRemove, memLookup]
  | cons hd rest ih =>
    obtain ⟨k, v⟩ := hd
    by_cases hk : k = id <;> simp [memRemove, memLookup, hk, ih]

theorem memLookup_memRemove_ne {R : Type} (s : MemState R) (id id' : Id)
    (h : id ≠ id') : memLookup (memRemove s id) id' = memLookup s id' := by
  induction s with
  | nil => simp [memRemove, memLookup]
  | cons hd rest ih =>
    obtain ⟨k, v⟩ := hd
    by_cases hk : k = id
    · subst hk
      simp [memRemove, memLookup, h, ih]
    · by_cases hk' : k = id' <;>
        simp [memRemove, memLookup, hk, hk', Ne.symm h, ih]

theorem memLookup_le_memMax {R : Type} (s : MemState R) (id : Id) (v : R)
    (h : memLookup s id = some v) : id ≤ memMax s := by
  induction s with
  | nil => simp [memLookup] at h
  | cons hd rest ih =>
    obtain ⟨k, w⟩ := hd
    simp only [memLookup] at h
    simp only [memMax, List.map_cons, List.foldr_cons]
    by_cases hk : k = id
    · subst hk
      exact le_max_left _ _
    · simp only [hk, if_false] at h
      exact le_trans (ih h) (le_max_right _ _)

theorem memLookup_memFresh {R : Type} (s : MemState R) :
    memLookup s (memFresh s) = none := by
  cases h : memLookup s (memFresh s) with
  | none => rfl
  | some v =>
    have hle : memMax s + 1 ≤ memMax s := memLookup_le_memMax s (memFresh s) v h
    omega

/-- C3: `CachingSessionStore::load` consults the cache tier first. A cache
hit is returned as-is: the result holds for every store tier and the store
state is untouched, so the store tier is not invoked. A cache-tier error is
surfaced tagged as a cache-tier error, again for every store tier. Only on a
cache-tier `none` is the store tier's load run, and a store-tier error is
surfaced tagged as a store-tier error. -/
theorem caching_load_consultation_order {R Ec Es σc σs : Type}
    (cops : SessionStore R Ec σc) (st : CachingSessionStore σc σs) (id : Id) :
    (∀ (record : R) (c' : σc), cops.load st.cache id = (.ok (some record), c') →
      ∀ (sops : SessionStore R Es σs),
        CachingSessionStore.load cops sops st id
          = (.ok (some record), ⟨c', st.store⟩)) ∧
    (∀ (e : Ec) (c' : σc), cops.load st.cache id = (.error e, c') →
      ∀ (sops : SessionStore R Es σs),
        CachingSessionStore.load cops sops st id
          = (.error (.inl e), ⟨c', st.store⟩)) ∧
    (∀ (c' : σc) (sops : SessionStore R Es σs) (e : Es) (s' : σs),
      cops.load st.cache id = (.ok none, c') →
      sops.load st.store id = (.error e, s') →
      CachingSessionStore.load cops sops st id = (.error (.inr e), ⟨c', s'⟩)) := by
  refine ⟨?_, ?_, ?_⟩
  · intro record c' h sops
    simp [CachingSessionStore.load, h]
  · intro e c' h sops
    simp [CachingSessionStore.load, h]
  · intro c' sops e s' h1 h2
    simp [CachingSessionStore.load, h1, h2]

theorem caching_load_consultation_order_witness :
    (MemStore Nat).load [(0, 42)] 0 = (.ok (some 42), [(0, 42)]) ∧
    CachingSessionStore.load (MemStore Nat) (MemStore Nat) ⟨[(0, 42)], []⟩ 0
      = (.ok (some 42), ⟨[(0, 42)], []⟩) :=
  ⟨rfl,
    (caching_load_consultation_order (MemStore Nat) ⟨[(0, 42)], []⟩ 0).1
      42 [(0, 42)] rfl (MemStore Nat)⟩

/-- C9: on the read-through path of `CachingSessionStore::load` — cache miss,
store hit — a hard error from the hydrating `cache.save` is returned as a
cache-tier error, and the record the authoritative store successfully
returned is discarded. -/
theorem caching_load_hydration_error {R Ec Es σc σs : Type}
    (cops : SessionStore R Ec σc) (sops : SessionStore R Es σs)
    (st : CachingSessionStore σc σs) (id : Id) (record : R) (c' : σc)
    (s' : σs) (e : Ec) (c'' : σc)
    (h1 : cops.load st.cache id = (.ok none, c'))
    (h2 : sops.load st.store id = (.ok (some record), s'))
    (h3 : cops.save c' id record = (.error e, c'')) :
    CachingSessionStore.load cops sops st id = (.error (.inl e), ⟨c'', s'⟩) := by
  simp [CachingSessionStore.load, h1, h2, h3]

theorem caching_load_hydration_error_witness :
    (SaveFailCache Nat).load () 0 = (.ok none, ()) ∧
    (MemStore Nat).load [(0, 42)] 0 = (.ok (some 42), [(0, 42)]) ∧
    (SaveFailCache Nat).save () 0 42 = (.error (), ()) ∧
    CachingSessionStore.load (SaveFailCache Nat) (MemStore Nat)
      ⟨(), [(0, 42)]⟩ 0 = (.error (.inl ()), ⟨(), [(0, 42)]⟩) :=
  ⟨rfl, rfl, rfl,
    caching_load_hydration_error (SaveFailCache Nat) (MemStore Nat)
      ⟨(), [(0, 42)]⟩ 0 42 () [(0, 42)] () () rfl rfl rfl⟩

/-- C4: `CachingSessionStore::create` writes to the authoritative store
first. If the store-tier create fails, the error is returned tagged as a
store-tier error, the cache state is unchanged, and the result holds for
every cache tier, so the cache is never invoked. On store success, the cache
is mirrored via `save_or_create` under the identifier the store assigned,
and that identifier is returned. -/
theorem caching_create_order_atomicity {R Ec Es σc σs : Type}
    (sops : SessionStore R Es σs) (st : CachingSessionStore σc σs)
    (record : R) :
    (∀ (e : Es) (s' : σs), sops.create st.store record = (.error e, s') →
      ∀ (cops : SessionStore R Ec σc),
        CachingSessionStore.create cops sops st record
          = (.error (.inr e), ⟨st.cache, s'⟩)) ∧
    (∀ (cops : SessionStore R Ec σc) (id : Id) (s' : σs) (u : Unit) (c' : σc),
      sops.create st.store record = (.ok id, s') →
      cops.save_or_create st.cache id record = (.ok u, c') →
      CachingSessionStore.create cops sops st record = (.ok id, ⟨c', s'⟩)) := by
  constructor
  · intro e s' h cops
    simp [CachingSessionStore.create, h]
  · intro cops id s' u c' h1 h2
    simp [CachingSessionStore.create, h1, h2]

theorem caching_create_order_atomicity_witness :
    ((FailStore Nat).create () 42 = (.error (), ()) ∧
      CachingSessionStore.create (MemStore Nat) (FailStore Nat) ⟨[], ()⟩ 42
        = (.error (.inr ()), ⟨[], ()⟩)) ∧
    ((MemStore Nat).create [] 42 = (.ok 1, [(1, 42)]) ∧
      (MemStore Nat).save_or_create [] 1 42 = (.ok (), [(1, 42)]) ∧
      CachingSessionStore.create (MemStore Nat) (MemStore Nat) ⟨[], []⟩ 42
        = (.ok 1, ⟨[(1, 42)], [(1, 42)]⟩)) :=
  ⟨⟨rfl,
      (caching_create_order_atomicity (FailStore Nat) ⟨[], ()⟩ 42).1
        () () rfl (MemStore Nat)⟩,
    ⟨rfl, rfl,
      (caching_create_order_atomicity (MemStore Nat) ⟨[], []⟩ 42).2
        (MemStore Nat) 1 [(1, 42)] () [(1, 42)] rfl rfl⟩⟩

/-- C2: for conforming in-memory tiers, when the authoritative store has no
record under the identifier (its `save` returns `false`) while the cache has
one (its `save` returns `true`), `CachingSessionStore::save` purges the
identifier from the cache and returns `false`, and a subsequent
`CachingSessionStore::load` of the identifier returns `none`; moreover,
generically, whenever the decorator's save returns `Except.ok b`, the store
tier's save returned exactly `Except.ok b`. -/
theorem caching_save_no_stale_positive {R : Type}
    (c s : MemState R) (id : Id) (record v : R)
    (hs : memLookup s id = none) (hc : memLookup c id = some v) :
    CachingSessionStore.save (MemStore R) (MemStore R) ⟨c, s⟩ id record
      = (.ok false, ⟨memRemove (memInsert c id record) id, s⟩) ∧
    CachingSessionStore.load (MemStore R) (MemStore R)
      ⟨memRemove (memInsert c id record) id, s⟩ id
      = (.ok none, ⟨memRemove (memInsert c id record) id, s⟩) ∧
    (∀ {Ec Es σc σs : Type} (cops : SessionStore R Ec σc)
      (sops : SessionStore R Es σs) (st : CachingSessionStore σc σs)
      (id' : Id) (r' : R) (b : Bool) (st' : CachingSessionStore σc σs),
      CachingSessionStore.save cops sops st id' r' = (.ok b, st') →
      (sops.save st.store id' r').1 = .ok b) := by
  refine ⟨?_, ?_, ?_⟩
  · simp [CachingSessionStore.save, MemStore, hc, hs, memLookup_memInsert_self]
  · simp [CachingSessionStore.load, MemStore, hs, memLookup_memRemove_self]
  · intro Ec Es σc σs cops sops st id' r' b st' hsave
    rcases hc2 : cops.save st.cache id' r' with ⟨rc, c'⟩
    rcases hs2 : sops.save st.store id' r' with ⟨rs, s'⟩
    unfold CachingSessionStore.save at hsave
    rw [hc2, hs2] at hsave
    cases rc with
    | error e => simp at hsave
    | ok bc =>
      cases rs with
      | error e => simp at hsave
      | ok bs =>
        simp only at hsave
        split at hsave
        · rcases hd : cops.delete c' id' with ⟨rd, c''⟩
          rw [hd] at hsave
          cases rd with
          | error e => simp at hsave
          | ok bd =>
            simp only [Prod.mk.injEq] at hsave
            simpa using hsave.1
        · simp only [Prod.mk.injEq] at hsave
          simpa using hsave.1

theorem caching_save_no_stale_positive_witness :
    memLookup ([] : MemState Nat) 0 = none ∧
    memLookup [(0, 7)] 0 = some 7 ∧
    (CachingSessionStore.save (MemStore Nat) (MemStore Nat) ⟨[(0, 7)], []⟩ 0 42
        = (.ok false, ⟨[], []⟩) ∧
      CachingSessionStore.load (MemStore Nat) (MemStore Nat) ⟨[], []⟩ 0
        = (.ok none, ⟨[], []⟩)) :=
  ⟨rfl, rfl,
    ⟨(caching_save_no_stale_positive [(0, 7)] [] 0 42 7 rfl rfl).1,
      (caching_save_no_stale_positive [(0, 7)] [] 0 42 7 rfl rfl).2.1⟩⟩

/-- C5: the default `SessionStore::cycle_id` first loads under the old
identifier and, on absence, returns `none` leaving the state exactly as the
load left it, with no further store operation. On presence (shown for the
conforming in-memory backend over every state): it creates the same record
under a fresh identifier distinct from the old one, deletes the old
identifier, and returns the new identifier; afterwards the record's data is
unchanged under the new identifier and a load of the old identifier finds
nothing. -/
theorem default_cycle_id_spec :
    (∀ {R E σ : Type} (ops : SessionStore R E σ) (st s1 : σ) (old_id : Id),
      ops.load st old_id = (.ok none, s1) →
      default_cycle_id ops.load ops.create ops.delete st old_id
        = (.ok none, s1)) ∧
    (∀ {R : Type} (s : MemState R) (old_id : Id) (r : R),
      memLookup s old_id = some r →
      (MemStore R).cycle_id s old_id
          = (.ok (some (memFresh s)),
            memRemove (memInsert s (memFresh s) r) old_id) ∧
      memFresh s ≠ old_id ∧
      memLookup (memRemove (memInsert s (memFresh s) r) old_id) (memFresh s)
        = some r ∧
      memLookup (memRemove (memInsert s (memFresh s) r) old_id) old_id
        = none) := by
  constructor
  · intro R E σ ops st s1 old_id h
    simp [default_cycle_id, h]
  · intro R s old_id r h
    have hfresh : memLookup s (memFresh s) = none := memLookup_memFresh s
    have hne : memFresh s ≠ old_id := by
      intro he
      rw [he, h] at hfresh
      exact Option.noConfusion hfresh
    refine ⟨?_, hne, ?_, ?_⟩
    · simp [MemStore, default_cycle_id, h,
        memLookup_memInsert_ne s (memFresh s) old_id r hne]
    · rw [memLookup_memRemove_ne _ _ _ (Ne.symm hne)]
      exact memLookup_memInsert_self s (memFresh s) r
    · exact memLookup_memRemove_self _ old_id

theorem default_cycle_id_spec_witness :
    ((MemStore Nat).load [] 0 = (.ok none, []) ∧
      default_cycle_id (MemStore Nat).load (MemStore Nat).create
        (MemStore Nat).delete [] 0 = (.ok none, [])) ∧
    (memLookup [(1, 42)] 1 = some 42 ∧
      ((MemStore Nat).cycle_id [(1, 42)] 1 = (.ok (some 2), [(2, 42)]) ∧
        (2 : Id) ≠ 1 ∧
        memLookup [(2, 42)] 2 = some 42 ∧
        memLookup [(2, 42)] 1 = none)) :=
  ⟨⟨rfl, default_cycle_id_spec.1 (MemStore Nat) [] [] 0 rfl⟩,
    ⟨rfl, default_cycle_id_spec.2 [(1, 42)] 1 42 rfl⟩⟩

/-- C1 (code defect): read-through hydration cannot populate a cache tier
that conforms to the documented `save` contract ("should return Ok(false)
and should not create the new session" when the id is absent,
session_store.rs lines 111-117), because `CachingSessionStore::load` writes
back with `cache.save` — on this path the id has just missed the cache, so
the write is a no-op. At the failing input (empty cache, store holding
record 42 under id 0): the first load returns the record but leaves the
cache empty, and a load in that cache state consults the store tier's load
(shown by its outcome depending on the store tier: a failing store tier
makes it error), so a second load invokes the store tier again, contrary to
the claim. -/
theorem caching_load_hydration_noop :
    CachingSessionStore.load (MemStore Nat) (MemStore Nat) ⟨[], [(0, 42)]⟩ 0
      = (.ok (some 42), ⟨[], [(0, 42)]⟩) ∧
    CachingSessionStore.load (MemStore Nat) (FailStore Nat) ⟨[], ()⟩ 0
      = (.error (.inr ()), ⟨[], ()⟩) :=
  ⟨rfl, rfl⟩

/-- C6: `DataMut::save` calls the store's `save` with the guard's identifier
and data; when the store returns `true` it returns the session back,
carrying the same identifier and the persisted data; when the store returns
`false` it returns `none` and the mutation is discarded; in both outcomes
the updater slot is exactly what it was before the call. -/
theorem data_mut_save_spec {R E σ : Type} (ops : SessionStore R E σ)
    (dm : DataMut R) (store : σ) (updater : Option SessionUpdate) :
    (∀ (s' : σ), ops.save store dm.session.id dm.session.data = (.ok true, s') →
      DataMut.save ops dm store updater = (.ok (some dm.session), s', updater)) ∧
    (∀ (s' : σ), ops.save store dm.session.id dm.session.data = (.ok false, s') →
      DataMut.save ops dm store updater = (.ok none, s', updater)) := by
  constructor
  · intro s' h
    simp [DataMut.save, h]
  · intro s' h
    simp [DataMut.save, h]

theorem data_mut_save_spec_witness :
    ((MemStore Nat).save [(1, 5)] 1 42 = (.ok true, [(1, 42)]) ∧
      DataMut.save (MemStore Nat) ⟨⟨1, 42⟩⟩ [(1, 5)] none
        = (.ok (some ⟨1, 42⟩), [(1, 42)], none)) ∧
    ((MemStore Nat).save [] 1 42 = (.ok false, []) ∧
      DataMut.save (MemStore Nat) ⟨⟨1, 42⟩⟩ [] none = (.ok none, [], none)) :=
  ⟨⟨rfl,
      (data_mut_save_spec (MemStore Nat) ⟨⟨1, 42⟩⟩ [(1, 5)] none).1
        [(1, 42)] rfl⟩,
    ⟨rfl, (data_mut_save_spec (MemStore Nat) ⟨⟨1, 42⟩⟩ [] none).2 [] rfl⟩⟩

/-- C7: `SessionState::delete` calls the store's `delete` with the session's
identifier and, whenever that call succeeds, overwrites the updater slot
with the `Delete` disposition regardless of the boolean the store returned,
returning that boolean. -/
theorem session_state_delete_spec {R E σ : Type} (ops : SessionStore R E σ)
    (ss : SessionState R) (store : σ) (updater : Option SessionUpdate)
    (b : Bool) (s' : σ) (h : ops.delete store ss.id = (.ok b, s')) :
    SessionState.delete ops ss store updater
      = (.ok b, s', some SessionUpdate.delete) := by
  simp [SessionState.delete, h]

theorem session_state_delete_spec_witness :
    ((MemStore Nat).delete [(1, 5)] 1 = (.ok true, []) ∧
      SessionState.delete (MemStore Nat) ⟨1, 5⟩ [(1, 5)] none
        = (.ok true, [], some SessionUpdate.delete)) ∧
    ((MemStore Nat).delete [] 1 = (.ok false, []) ∧
      SessionState.delete (MemStore Nat) ⟨1, 5⟩ [] (some (.set 3 .onSessionEnd))
        = (.ok false, [], some SessionUpdate.delete)) :=
  ⟨⟨rfl, session_state_delete_spec (MemStore Nat) ⟨1, 5⟩ [(1, 5)] none
      true [] rfl⟩,
    ⟨rfl, session_state_delete_spec (MemStore Nat) ⟨1, 5⟩ []
      (some (.set 3 .onSessionEnd)) false [] rfl⟩⟩

/-- C8: `SessionState::cycle` calls the store's `cycle_id` with the
session's identifier; when it returns a new identifier, the updater slot is
overwritten with `Set(new_id, data.expires())` and the returned session is
rebound to the new identifier with the data unchanged; when it returns
`none`, the result is `none` and the updater slot is exactly what it was
before the call. -/
theorem session_state_cycle_spec {R E σ : Type} (ops : SessionStore R E σ)
    (expires : R → Expiry) (ss : SessionState R) (store : σ)
    (updater : Option SessionUpdate) :
    (∀ (new_id : Id) (s' : σ),
      ops.cycle_id store ss.id = (.ok (some new_id), s') →
      SessionState.cycle ops expires ss store updater
        = (.ok (some ⟨new_id, ss.data⟩), s',
          some (.set new_id (expires ss.data)))) ∧
    (∀ (s' : σ), ops.cycle_id store ss.id = (.ok none, s') →
      SessionState.cycle ops expires ss store updater
        = (.ok none, s', updater)) := by
  constructor
  · intro new_id s' h
    simp [SessionState.cycle, h]
  · intro s' h
    simp [SessionState.cycle, h]

theorem session_state_cycle_spec_witness :
    ((MemStore Nat).cycle_id [(1, 42)] 1 = (.ok (some 2), [(2, 42)]) ∧
      SessionState.cycle (MemStore Nat) (fun _ => .onSessionEnd) ⟨1, 42⟩
        [(1, 42)] none
        = (.ok (some ⟨2, 42⟩), [(2, 42)], some (.set 2 .onSessionEnd))) ∧
    ((MemStore Nat).cycle_id [] 1 = (.ok none, []) ∧
      SessionState.cycle (MemStore Nat) (fun _ => .onSessionEnd) ⟨1, 42⟩ []
        (some .delete) = (.ok none, [], some .delete)) :=
  ⟨⟨rfl,
      (session_state_cycle_spec (MemStore Nat) (fun _ => .onSessionEnd)
        ⟨1, 42⟩ [(1, 42)] none).1 2 [(2, 42)] rfl⟩,
    ⟨rfl,
      (session_state_cycle_spec (MemStore Nat) (fun _ => .onSessionEnd)
        ⟨1, 42⟩ [] (some .delete)).2 [] rfl⟩⟩

/-- C10: when the store call made by `SessionState::delete` or by
`SessionState::cycle` fails with a hard error, the error is propagated and
the updater slot is exactly what it was before the call: no `Delete` or
`Set` disposition is recorded on the error path. -/
theorem session_error_path_updater_frame :
    (∀ {R E σ : Type} (ops : SessionStore R E σ) (ss : SessionState R)
      (store : σ) (updater : Option SessionUpdate) (e : E) (s' : σ),
      ops.delete store ss.id = (.error e, s') →
      SessionState.delete ops ss store updater = (.error e, s', updater)) ∧
    (∀ {R E σ : Type} (ops : SessionStore R E σ) (expires : R → Expiry)
      (ss : SessionState R) (store : σ) (updater : Option SessionUpdate)
      (e : E) (s' : σ),
      ops.cycle_id store ss.id = (.error e, s') →
      SessionState.cycle ops expires ss store updater
        = (.error e, s', updater)) := by
  constructor
  · intro R E σ ops ss store updater e s' h
    simp [SessionState.delete, h]
  · intro R E σ ops expires ss store updater e s' h
    simp [SessionState.cycle, h]

theorem session_error_path_updater_frame_witness :
    ((FailStore Nat).delete () 0 = (.error (), ()) ∧
      SessionState.delete (FailStore Nat) ⟨0, 42⟩ () none
        = (.error (), (), none)) ∧
    ((FailStore Nat).cycle_id () 0 = (.error (), ()) ∧
      SessionState.cycle (FailStore Nat) (fun _ => .onSessionEnd) ⟨0, 42⟩ ()
        (some .delete) = (.error (), (), some .delete)) :=
  ⟨⟨rfl,
      session_error_path_updater_frame.1 (FailStore Nat) ⟨0, 42⟩ () none
        () () rfl⟩,
    ⟨rfl,
      session_error_path_updater_frame.2 (FailStore Nat)
        (fun _ => .onSessionEnd) ⟨0, 42⟩ () (some .delete) () () rfl⟩⟩

end TowerSessions
